import Mathlib

/-!
Verification development for the fixed-vs-floating swap valuation core
(`ql/instruments/fixedvsfloatingswap.hpp`).

The repository ships the header only: the inline accessors and the layout
of the `arguments` / `results` records are embedded from the source, while
the bodies that the header merely declares (`validate`, `reset`,
`setupExpired`, the pricing-engine calculation) are modelled from the
specification, as marked on each definition.

Real-valued quantities (`Real`, `Rate`, `Spread`, `Time`) are embedded as
rationals; dates as integers (serial day numbers).  The discounting
service is an explicit function from dates to discount factors.
-/

/-- Dates are serial day numbers, as in the library. -/
abbrev Date := Int

/-- The sentinel used by `Null<Real>()`: the largest finite `float`,
`std::numeric_limits<float>::max()` = (2 - 2^-23) * 2^127, exactly. -/
def nullReal : ℚ := 2 ^ 128 - 2 ^ 104

/-- `Swap::Type`: the two-valued sign-convention tag.  `Payer` pays the
fixed leg and receives the floating leg; `Receiver` is the mirror. -/
inductive SwapType where
  | Payer : SwapType
  | Receiver : SwapType
deriving DecidableEq, Repr

/-- Sign multiplier applied to the fixed leg: a `Payer` pays the fixed
leg (multiplier -1); a `Receiver` receives it (+1).  The floating leg
carries the opposite sign. -/
def SwapType.fixedMultiplier : SwapType → ℚ
  | .Payer => -1
  | .Receiver => 1

/-- The error taxonomy of the valuation protocol. -/
inductive QLError where
  | InvalidArguments : QLError
  | TypeMismatch : QLError
  | UndefinedResult : QLError
  | ResultNotAvailable : QLError
deriving DecidableEq, Repr

/-- `FixedVsFloatingSwap::arguments`: the engine-consumable snapshot.
Field-for-field from the header; the defaults mirror the C++ default
constructor (`arguments() : nominal(Null<Real>()) {}`, `type = Receiver`,
and default-constructed, hence empty, vectors). -/
structure SwapArguments where
  type : SwapType := .Receiver
  nominal : ℚ := nullReal
  fixedResetDates : List Date := []
  fixedPayDates : List Date := []
  floatingAccrualTimes : List ℚ := []
  floatingResetDates : List Date := []
  floatingFixingDates : List Date := []
  floatingPayDates : List Date := []
  fixedCoupons : List ℚ := []
  floatingSpreads : List ℚ := []
  floatingCoupons : List ℚ := []
deriving DecidableEq, Repr

/-- A default-constructed snapshot. -/
def argumentsDefault : SwapArguments := {}

/-- Modelled from the spec: `FixedVsFloatingSwap::arguments::validate`,
whose body is not in the header.  It fails with `InvalidArguments` if,
within either leg, the parallel sequences have mismatched lengths, or if
`nominal` is unset (still the `Null<Real>()` sentinel). -/
def SwapArguments.validate (a : SwapArguments) : Except QLError Unit :=
  if a.nominal = nullReal then .error .InvalidArguments
  else if a.fixedResetDates.length ≠ a.fixedPayDates.length then .error .InvalidArguments
  else if a.fixedCoupons.length ≠ a.fixedPayDates.length then .error .InvalidArguments
  else if a.floatingResetDates.length ≠ a.floatingPayDates.length then .error .InvalidArguments
  else if a.floatingFixingDates.length ≠ a.floatingPayDates.length then .error .InvalidArguments
  else if a.floatingAccrualTimes.length ≠ a.floatingPayDates.length then .error .InvalidArguments
  else if a.floatingSpreads.length ≠ a.floatingPayDates.length then .error .InvalidArguments
  else if a.floatingCoupons.length ≠ a.floatingPayDates.length then .error .InvalidArguments
  else .ok ()

/-- The length-mismatch condition of `validate`, as a predicate: within
some leg two parallel sequences differ in length. -/
def SwapArguments.mismatched (a : SwapArguments) : Prop :=
  a.fixedResetDates.length ≠ a.fixedPayDates.length ∨
  a.fixedCoupons.length ≠ a.fixedPayDates.length ∨
  a.floatingResetDates.length ≠ a.floatingPayDates.length ∨
  a.floatingFixingDates.length ≠ a.floatingPayDates.length ∨
  a.floatingAccrualTimes.length ≠ a.floatingPayDates.length ∨
  a.floatingSpreads.length ≠ a.floatingPayDates.length ∨
  a.floatingCoupons.length ≠ a.floatingPayDates.length

instance (a : SwapArguments) : Decidable a.mismatched := by
  unfold SwapArguments.mismatched; infer_instance

/-- Sum of discounted amounts: Σ amountᵢ × df(payDateᵢ), pairing each
amount with its payment date. -/
def discountedSum (amounts : List ℚ) (payDates : List Date) (df : Date → ℚ) : ℚ :=
  (List.zipWith (fun c d => c * df d) amounts payDates).sum

/-- The unsigned level annuity of a leg: Σ accrualᵢ × nominal × df(payDateᵢ). -/
def annuity (accruals : List ℚ) (payDates : List Date) (nominal : ℚ) (df : Date → ℚ) : ℚ :=
  (List.zipWith (fun t d => t * nominal * df d) accruals payDates).sum

/-- One basis point, 0.0001: the rate shift defining BPS. -/
def basisPoint : ℚ := 1 / 10000

/-- The record filled by the engine: per-leg NPV and BPS, total NPV
(`value`), and the two fair values, each either a rate or the
`UndefinedResult` signal for a degenerate annuity. -/
structure CalcResults where
  fixedLegNPV : ℚ
  floatingLegNPV : ℚ
  fixedLegBPS : ℚ
  floatingLegBPS : ℚ
  value : ℚ
  fairRate : Except QLError ℚ
  fairSpread : Except QLError ℚ
deriving Repr

/-- Modelled from the spec: the pricing-engine `calculate()` body, which
the header only declares (`FixedVsFloatingSwap::engine`).  Inputs beyond
the snapshot are the external services and data the spec gives the
engine: the discounting service `df`, the fixed-leg accrual fractions
(carried by the cash-flow records of section 2 but not by the snapshot
arrays), and the instrument scalars `fixedRate` and `spread` that the
closed forms of section 4.2 are anchored at.

Leg NPVs are signed sums of discounted amounts; BPS is the basis-point
scaled signed annuity; the fair values are the closed forms
`fairRate = fixedRate - totalNPV / annuityFixed` and
`fairSpread = spread - totalNPV / annuityFloating`, where each divisor is
the signed derivative of that leg contribution to total NPV with respect
to its driving rate (the spec: sign normalized per pay side, so that the
spec round-trip property and the worked example of section 8 hold).  A
zero divisor signals `UndefinedResult` instead of producing a number. -/
def engineCalculate (a : SwapArguments) (fixedAccruals : List ℚ) (df : Date → ℚ)
    (fixedRate spread : ℚ) : CalcResults :=
  let sgn := a.type.fixedMultiplier
  let fixedNPV := sgn * discountedSum a.fixedCoupons a.fixedPayDates df
  let floatingNPV := -sgn * discountedSum a.floatingCoupons a.floatingPayDates df
  let annFixed := sgn * annuity fixedAccruals a.fixedPayDates a.nominal df
  let annFloating := -sgn * annuity a.floatingAccrualTimes a.floatingPayDates a.nominal df
  let total := fixedNPV + floatingNPV
  { fixedLegNPV := fixedNPV
    floatingLegNPV := floatingNPV
    fixedLegBPS := basisPoint * annFixed
    floatingLegBPS := basisPoint * annFloating
    value := total
    fairRate :=
      if annFixed = 0 then .error .UndefinedResult
      else .ok (fixedRate - total / annFixed)
    fairSpread :=
      if annFloating = 0 then .error .UndefinedResult
      else .ok (spread - total / annFloating) }

/-- The valuation request as admitted by the protocol: `validate()` runs
first and blocks the calculation entirely on failure, so no results
record is produced for an invalid snapshot. -/
def runValuation (a : SwapArguments) (fixedAccruals : List ℚ) (df : Date → ℚ)
    (fixedRate spread : ℚ) : Except QLError CalcResults :=
  match a.validate with
  | .error e => .error e
  | .ok _ => .ok (engineCalculate a fixedAccruals df fixedRate spread)

/-- The economic terms of a fixed-vs-floating swap, as a value: the
construction parameters of section 6 that the closed forms depend on,
with schedules already resolved (by the external schedule/day-count
collaborators) into per-period accrual fractions, payment dates, and
floating forecast rates. -/
structure SwapTerms where
  type : SwapType
  nominal : ℚ
  fixedRate : ℚ
  spread : ℚ
  fixedAccruals : List ℚ
  fixedPayDates : List Date
  floatingAccrualTimes : List ℚ
  floatingForecasts : List ℚ
  floatingPayDates : List Date
deriving Repr

/-- Modelled from the spec: `setupArguments` as it populates the
snapshot, whose body is not in the header.  Per section 2 each fixed
cash-flow amount is `fixedRate × accrual × nominal` and each floating
forecast amount is `(forecastRate + spread) × accrual × nominal`; reset
and fixing dates coincide with the schedule dates at this granularity. -/
def SwapTerms.setupArguments (s : SwapTerms) : SwapArguments :=
  { type := s.type
    nominal := s.nominal
    fixedResetDates := s.fixedPayDates
    fixedPayDates := s.fixedPayDates
    floatingAccrualTimes := s.floatingAccrualTimes
    floatingResetDates := s.floatingPayDates
    floatingFixingDates := s.floatingPayDates
    floatingPayDates := s.floatingPayDates
    fixedCoupons := s.fixedAccruals.map (fun t => s.fixedRate * t * s.nominal)
    floatingSpreads := s.floatingAccrualTimes.map (fun _ => s.spread)
    floatingCoupons :=
      List.zipWith (fun f t => (f + s.spread) * t * s.nominal)
        s.floatingForecasts s.floatingAccrualTimes }

/-- End-to-end valuation of an instrument: build the snapshot and hand
it to the engine together with the discounting service. -/
def SwapTerms.calculate (s : SwapTerms) (df : Date → ℚ) : CalcResults :=
  engineCalculate s.setupArguments s.fixedAccruals df s.fixedRate s.spread

/-- A leg: the ordered cash-flow amounts of one side of the swap
(`Leg` is a vector of cash flows in the library). -/
abbrev Leg := List ℚ

/-- The instrument object: the construction-time fields of
`FixedVsFloatingSwap` (header, private section) together with the
`Swap` base data it relies on — the `legs_` vector and the mutable
valuation results (`NPV_`, per-leg NPV/BPS, and the cached
`fairRate_` / `fairSpread_`). -/
structure SwapInstrument where
  type : SwapType
  nominal : ℚ
  fixedRate : ℚ
  spread : ℚ
  legs : List Leg
  npv : ℚ
  legNPV : ℚ × ℚ
  legBPS : ℚ × ℚ
  fairRateCache : ℚ
  fairSpreadCache : ℚ
deriving Repr

/-- `fixedLeg()`: returns `legs_[0]` (header, inline definition). -/
def SwapInstrument.fixedLeg (s : SwapInstrument) : Leg := s.legs.getD 0 []

/-- `floatingLeg()`: returns `legs_[1]` (header, inline definition). -/
def SwapInstrument.floatingLeg (s : SwapInstrument) : Leg := s.legs.getD 1 []

/-- Modelled from the spec: the constructor body is not in the header;
per section 3 the legs are generated once at construction with the fixed
leg at index 0 and the floating leg at index 1, and the cached fair
values start unset. -/
def mkSwapInstrument (type : SwapType) (nominal fixedRate spread : ℚ)
    (fixedLegFlows floatingLegFlows : Leg) : SwapInstrument :=
  { type := type
    nominal := nominal
    fixedRate := fixedRate
    spread := spread
    legs := [fixedLegFlows, floatingLegFlows]
    npv := nullReal
    legNPV := (nullReal, nullReal)
    legBPS := (nullReal, nullReal)
    fairRateCache := nullReal
    fairSpreadCache := nullReal }

/-- Modelled from the spec: `setupExpired()`, whose body is not in the
header.  When the valuation date is past maturity it sets all NPV/BPS
fields to zero and resets the cached `fairRate_` / `fairSpread_` to the
unset sentinel; it is a total state update, not an error path. -/
def SwapInstrument.setupExpired (s : SwapInstrument) : SwapInstrument :=
  { s with
    npv := 0
    legNPV := (0, 0)
    legBPS := (0, 0)
    fairRateCache := nullReal
    fairSpreadCache := nullReal }

/-- `FixedVsFloatingSwap::results`: `fairRate` and `fairSpread` (header)
plus the inherited `Swap::results` fields (total value, per-leg NPV and
BPS vectors). -/
structure SwapResults where
  value : ℚ
  legNPV : List ℚ
  legBPS : List ℚ
  fairRate : ℚ
  fairSpread : ℚ
deriving DecidableEq, Repr

/-- Modelled from the spec: `results::reset()`, whose body is not in the
header.  It restores `fairRate` and `fairSpread` to the explicit unset
sentinel and delegates to the inherited reset, which clears the
NPV/BPS fields. -/
def SwapResults.reset (_ : SwapResults) : SwapResults :=
  { value := nullReal
    legNPV := []
    legBPS := []
    fairRate := nullReal
    fairSpread := nullReal }

/-- The unsigned fixed-leg annuity of an instrument under a given
discounting service. -/
def SwapTerms.annuityFixed (s : SwapTerms) (df : Date → ℚ) : ℚ :=
  annuity s.fixedAccruals s.fixedPayDates s.nominal df

/-- The unsigned floating-leg annuity of an instrument under a given
discounting service. -/
def SwapTerms.annuityFloating (s : SwapTerms) (df : Date → ℚ) : ℚ :=
  annuity s.floatingAccrualTimes s.floatingPayDates s.nominal df

/-- The spread-independent part of the floating leg: the discounted
forecast amounts at zero spread. -/
def SwapTerms.floatingBase (s : SwapTerms) (df : Date → ℚ) : ℚ :=
  discountedSum
    (List.zipWith (fun f t => f * t * s.nominal) s.floatingForecasts s.floatingAccrualTimes)
    s.floatingPayDates df

/-- A snapshot with a fixed-leg array-length mismatch: three fixed pay
dates but only two coupon amounts, floating leg empty, nominal set. -/
def mismatchedSnapshot : SwapArguments :=
  { type := .Payer
    nominal := 1000000
    fixedResetDates := [0, 180, 360]
    fixedPayDates := [180, 360, 540]
    fixedCoupons := [25000, 25000] }

/-- A one-period swap with zero notional: both annuities vanish. -/
def zeroNominalSnapshot : SwapArguments :=
  { type := .Payer
    nominal := 0
    fixedResetDates := [0]
    fixedPayDates := [360]
    fixedCoupons := [0]
    floatingAccrualTimes := [1]
    floatingResetDates := [0]
    floatingFixingDates := [0]
    floatingPayDates := [360]
    floatingSpreads := [0]
    floatingCoupons := [0] }

/-- The worked one-period Payer swap of the spec (section 8): notional
1,000,000, fixed rate 0.05, accrual fraction 1, floating forecast rate
0.03, zero spread, single payment date. -/
def payerExample : SwapTerms :=
  { type := .Payer
    nominal := 1000000
    fixedRate := 1/20
    spread := 0
    fixedAccruals := [1]
    fixedPayDates := [360]
    floatingAccrualTimes := [1]
    floatingForecasts := [3/100]
    floatingPayDates := [360] }

/-- A flat discounting service: factor 0.98 at every date. -/
def flatDf : Date → ℚ := fun _ => 49/50

theorem validate_eq_ok_iff (a : SwapArguments) :
    a.validate = .ok () ↔
      a.nominal ≠ nullReal ∧
      a.fixedResetDates.length = a.fixedPayDates.length ∧
      a.fixedCoupons.length = a.fixedPayDates.length ∧
      a.floatingResetDates.length = a.floatingPayDates.length ∧
      a.floatingFixingDates.length = a.floatingPayDates.length ∧
      a.floatingAccrualTimes.length = a.floatingPayDates.length ∧
      a.floatingSpreads.length = a.floatingPayDates.length ∧
      a.floatingCoupons.length = a.floatingPayDates.length := by
  unfold SwapArguments.validate
  split_ifs with h1 h2 h3 h4 h5 h6 h7 h8 <;> simp_all

theorem validate_error_of_not_ok (a : SwapArguments) (h : a.validate ≠ .ok ()) :
    a.validate = .error .InvalidArguments := by
  unfold SwapArguments.validate at *
  split_ifs at * <;> simp_all

theorem annuity_nominal_zero (accruals : List ℚ) (payDates : List Date) (df : Date → ℚ) :
    annuity accruals payDates 0 df = 0 := by
  induction accruals generalizing payDates with
  | nil => simp [annuity]
  | cons t ts ih =>
    cases payDates with
    | nil => simp [annuity]
    | cons d ds =>
      simp only [annuity, List.zipWith_cons_cons, List.sum_cons] at ih ⊢
      rw [ih ds]; ring

theorem discountedSum_fixed_coupons (r n : ℚ) (accruals : List ℚ) (payDates : List Date)
    (df : Date → ℚ) :
    discountedSum (accruals.map (fun t => r * t * n)) payDates df
      = r * annuity accruals payDates n df := by
  induction accruals generalizing payDates with
  | nil => simp [discountedSum, annuity]
  | cons t ts ih =>
    cases payDates with
    | nil => simp [discountedSum, annuity]
    | cons d ds =>
      simp only [List.map_cons, discountedSum, annuity, List.zipWith_cons_cons,
        List.sum_cons] at ih ⊢
      rw [ih ds]; ring

theorem discountedSum_floating_coupons (sp n : ℚ) (forecasts accruals : List ℚ)
    (payDates : List Date) (df : Date → ℚ)
    (h : forecasts.length = accruals.length) :
    discountedSum (List.zipWith (fun f t => (f + sp) * t * n) forecasts accruals) payDates df
      = sp * annuity accruals payDates n df
        + discountedSum (List.zipWith (fun f t => f * t * n) forecasts accruals) payDates df := by
  induction forecasts generalizing accruals payDates with
  | nil =>
    obtain rfl : accruals = [] := by simpa using (List.length_eq_zero.mp h.symm)
    simp [discountedSum, annuity]
  | cons f fs ih =>
    cases accruals with
    | nil => simp at h
    | cons t ts =>
      cases payDates with
      | nil => simp [discountedSum, annuity]
      | cons d ds =>
        simp only [List.zipWith_cons_cons, discountedSum, annuity, List.sum_cons] at ih ⊢
        rw [ih ts ds (by simpa using h)]; ring

theorem engineCalculate_value (a : SwapArguments) (fixedAccruals : List ℚ) (df : Date → ℚ)
    (fixedRate spread : ℚ) :
    (engineCalculate a fixedAccruals df fixedRate spread).value
      = a.type.fixedMultiplier * discountedSum a.fixedCoupons a.fixedPayDates df
        + -a.type.fixedMultiplier * discountedSum a.floatingCoupons a.floatingPayDates df := rfl

theorem engineCalculate_fairRate (a : SwapArguments) (fixedAccruals : List ℚ) (df : Date → ℚ)
    (fixedRate spread : ℚ) :
    (engineCalculate a fixedAccruals df fixedRate spread).fairRate
      = if a.type.fixedMultiplier * annuity fixedAccruals a.fixedPayDates a.nominal df = 0
        then .error .UndefinedResult
        else .ok (fixedRate - (engineCalculate a fixedAccruals df fixedRate spread).value
          / (a.type.fixedMultiplier * annuity fixedAccruals a.fixedPayDates a.nominal df)) := rfl

theorem engineCalculate_fairSpread (a : SwapArguments) (fixedAccruals : List ℚ) (df : Date → ℚ)
    (fixedRate spread : ℚ) :
    (engineCalculate a fixedAccruals df fixedRate spread).fairSpread
      = if -a.type.fixedMultiplier * annuity a.floatingAccrualTimes a.floatingPayDates a.nominal df = 0
        then .error .UndefinedResult
        else .ok (spread - (engineCalculate a fixedAccruals df fixedRate spread).value
          / (-a.type.fixedMultiplier * annuity a.floatingAccrualTimes a.floatingPayDates a.nominal df)) := rfl

theorem engineCalculate_fixedLegBPS (a : SwapArguments) (fixedAccruals : List ℚ) (df : Date → ℚ)
    (fixedRate spread : ℚ) :
    (engineCalculate a fixedAccruals df fixedRate spread).fixedLegBPS
      = basisPoint * (a.type.fixedMultiplier * annuity fixedAccruals a.fixedPayDates a.nominal df) := rfl

theorem engineCalculate_floatingLegBPS (a : SwapArguments) (fixedAccruals : List ℚ) (df : Date → ℚ)
    (fixedRate spread : ℚ) :
    (engineCalculate a fixedAccruals df fixedRate spread).floatingLegBPS
      = basisPoint * (-a.type.fixedMultiplier * annuity a.floatingAccrualTimes a.floatingPayDates a.nominal df) := rfl

theorem calculate_value_eq (s : SwapTerms) (df : Date → ℚ)
    (h : s.floatingForecasts.length = s.floatingAccrualTimes.length) :
    (s.calculate df).value
      = s.type.fixedMultiplier *
          (s.fixedRate * s.annuityFixed df
            - s.spread * s.annuityFloating df - s.floatingBase df) := by
  simp only [SwapTerms.calculate, engineCalculate_value, SwapTerms.setupArguments,
    SwapTerms.annuityFixed, SwapTerms.annuityFloating, SwapTerms.floatingBase]
  rw [discountedSum_fixed_coupons, discountedSum_floating_coupons _ _ _ _ _ _ h]
  ring

/-- Claim C3: whenever the relevant leg annuity is numerically zero, the
engine signals `UndefinedResult` for the corresponding fair value instead
of a number; with zero nominal both annuities vanish, so both fair
values are `UndefinedResult`. -/
theorem claim_C3_degenerate_annuity (a : SwapArguments) (fixedAccruals : List ℚ)
    (df : Date → ℚ) (fixedRate spread : ℚ) :
    (annuity fixedAccruals a.fixedPayDates a.nominal df = 0 →
      (engineCalculate a fixedAccruals df fixedRate spread).fairRate
        = .error .UndefinedResult) ∧
    (annuity a.floatingAccrualTimes a.floatingPayDates a.nominal df = 0 →
      (engineCalculate a fixedAccruals df fixedRate spread).fairSpread
        = .error .UndefinedResult) ∧
    (a.nominal = 0 →
      (engineCalculate a fixedAccruals df fixedRate spread).fairRate
          = .error .UndefinedResult ∧
        (engineCalculate a fixedAccruals df fixedRate spread).fairSpread
          = .error .UndefinedResult) := by
  refine ⟨fun h => ?_, fun h => ?_, fun h => ?_⟩
  · rw [engineCalculate_fairRate]; simp [h]
  · rw [engineCalculate_fairSpread]; simp [h]
  · constructor
    · rw [engineCalculate_fairRate]
      simp [h, annuity_nominal_zero]
    · rw [engineCalculate_fairSpread]
      simp [h, annuity_nominal_zero]

/-- Witness for C3: the zero-notional snapshot produces
`UndefinedResult` for both fair values. -/
theorem claim_C3_degenerate_annuity_witness :
    (engineCalculate zeroNominalSnapshot [1] (fun _ => 49/50) (1/20) 0).fairRate
        = .error .UndefinedResult ∧
      (engineCalculate zeroNominalSnapshot [1] (fun _ => 49/50) (1/20) 0).fairSpread
        = .error .UndefinedResult :=
  (claim_C3_degenerate_annuity zeroNominalSnapshot [1] (fun _ => 49/50) (1/20) 0).2.2 rfl

/-- Claim C4: an unset nominal or any within-leg length mismatch makes
the valuation fail with `InvalidArguments` before the engine runs, so no
results record is produced. -/
theorem claim_C4_validate_blocks (a : SwapArguments) (fixedAccruals : List ℚ)
    (df : Date → ℚ) (fixedRate spread : ℚ)
    (h : a.mismatched ∨ a.nominal = nullReal) :
    runValuation a fixedAccruals df fixedRate spread = .error .InvalidArguments := by
  have hv : a.validate = .error .InvalidArguments := by
    apply validate_error_of_not_ok
    intro hok
    rw [validate_eq_ok_iff] at hok
    rcases h with hm | hn
    · unfold SwapArguments.mismatched at hm; tauto
    · exact hok.1 hn
  simp [runValuation, hv]

/-- Witness for C4: three fixed pay dates against two coupon amounts is
rejected with `InvalidArguments`. -/
theorem claim_C4_validate_blocks_witness :
    runValuation mismatchedSnapshot [] (fun _ => 1) (1/20) 0
      = .error .InvalidArguments :=
  claim_C4_validate_blocks mismatchedSnapshot [] (fun _ => 1) (1/20) 0
    (Or.inl (by decide))

/-- Claim C7: past maturity, `setupExpired` zeroes every NPV/BPS field
and resets the cached fair rate and fair spread to the unset sentinel;
it is a total state update, never an error. -/
theorem claim_C7_setupExpired (s : SwapInstrument) :
    s.setupExpired.npv = 0 ∧
    s.setupExpired.legNPV = (0, 0) ∧
    s.setupExpired.legBPS = (0, 0) ∧
    s.setupExpired.fairRateCache = nullReal ∧
    s.setupExpired.fairSpreadCache = nullReal := by
  simp [SwapInstrument.setupExpired]

/-- Claim C8: `reset()` restores both fair values to the unset sentinel,
which is distinguishable from a computed zero, and clears the inherited
NPV/BPS fields, so a reused record exposes no prior answer. -/
theorem claim_C8_results_reset (r : SwapResults) :
    r.reset.fairRate = nullReal ∧
    r.reset.fairSpread = nullReal ∧
    nullReal ≠ 0 ∧
    r.reset.value = nullReal ∧
    r.reset.legNPV = [] ∧
    r.reset.legBPS = [] := by
  refine ⟨rfl, rfl, by norm_num [nullReal], rfl, rfl, rfl⟩

/-- Claim C9: the fixed leg is stored at index 0 and the floating leg at
index 1 of the `legs_` vector, and the `fixedLeg` / `floatingLeg`
accessors read exactly those indices. -/
theorem claim_C9_leg_ordering :
    (∀ (ty : SwapType) (n r sp : ℚ) (f fl : Leg),
      (mkSwapInstrument ty n r sp f fl).legs = [f, fl] ∧
      (mkSwapInstrument ty n r sp f fl).fixedLeg = f ∧
      (mkSwapInstrument ty n r sp f fl).floatingLeg = fl) ∧
    (∀ s : SwapInstrument,
      s.fixedLeg = s.legs.getD 0 [] ∧ s.floatingLeg = s.legs.getD 1 []) := by
  refine ⟨fun ty n r sp f fl => ⟨rfl, rfl, rfl⟩, fun s => ⟨rfl, rfl⟩⟩

/-- Claim C10: a default-constructed snapshot has `type = Receiver`, an
unset nominal, and empty sequences, and is rejected by `validate` until
the nominal is assigned. -/
theorem claim_C10_default_arguments :
    argumentsDefault.type = SwapType.Receiver ∧
    argumentsDefault.nominal = nullReal ∧
    argumentsDefault.fixedResetDates = [] ∧
    argumentsDefault.fixedPayDates = [] ∧
    argumentsDefault.floatingAccrualTimes = [] ∧
    argumentsDefault.floatingResetDates = [] ∧
    argumentsDefault.floatingFixingDates = [] ∧
    argumentsDefault.floatingPayDates = [] ∧
    argumentsDefault.fixedCoupons = [] ∧
    argumentsDefault.floatingSpreads = [] ∧
    argumentsDefault.floatingCoupons = [] ∧
    argumentsDefault.validate = .error .InvalidArguments ∧
    ∀ x : ℚ, x ≠ nullReal →
      SwapArguments.validate { argumentsDefault with nominal := x } = .ok () := by
  refine ⟨rfl, rfl, rfl, rfl, rfl, rfl, rfl, rfl, rfl, rfl, rfl, ?_, fun x hx => ?_⟩
  · simp [argumentsDefault, SwapArguments.validate]
  · simp [argumentsDefault, SwapArguments.validate, hx]

/-- Witness for C10: assigning nominal 1 to the default snapshot makes
`validate` succeed. -/
theorem claim_C10_default_arguments_witness :
    SwapArguments.validate { argumentsDefault with nominal := 1 } = .ok () := by
  have h := claim_C10_default_arguments
  exact h.2.2.2.2.2.2.2.2.2.2.2.2 1 (by norm_num [nullReal])

theorem calculate_fairRate_eq (s : SwapTerms) (df : Date → ℚ) :
    (s.calculate df).fairRate =
      if s.type.fixedMultiplier * s.annuityFixed df = 0 then .error .UndefinedResult
      else .ok (s.fixedRate
        - (s.calculate df).value / (s.type.fixedMultiplier * s.annuityFixed df)) := rfl

theorem calculate_fairSpread_eq (s : SwapTerms) (df : Date → ℚ) :
    (s.calculate df).fairSpread =
      if -s.type.fixedMultiplier * s.annuityFloating df = 0 then .error .UndefinedResult
      else .ok (s.spread
        - (s.calculate df).value / (-s.type.fixedMultiplier * s.annuityFloating df)) := rfl

/-- Claim C1 (amended): the fair fixed rate is computed in closed form,
without iteration, as `fairRate = fixedRate - totalNPV / annuityFixed`,
where `annuityFixed = fixedLegBPS / 0.0001` is the signed derivative of
the fixed-leg contribution to total NPV with respect to the fixed rate:
positive for a Receiver, negative for a Payer — not always positive. -/
theorem claim_C1_fairRate_closed_form (a : SwapArguments) (fixedAccruals : List ℚ)
    (df : Date → ℚ) (fixedRate spread : ℚ)
    (h : a.type.fixedMultiplier * annuity fixedAccruals a.fixedPayDates a.nominal df ≠ 0) :
    (engineCalculate a fixedAccruals df fixedRate spread).fairRate
      = .ok (fixedRate - (engineCalculate a fixedAccruals df fixedRate spread).value
          / ((engineCalculate a fixedAccruals df fixedRate spread).fixedLegBPS / basisPoint)) := by
  rw [engineCalculate_fairRate, if_neg h, engineCalculate_fixedLegBPS,
    mul_div_cancel_left₀ _ (show (basisPoint : ℚ) ≠ 0 by norm_num [basisPoint])]

/-- Witness for C1 (amended), at the one-period Payer example of the
spec with the snapshot the instrument builds for it. -/
theorem claim_C1_fairRate_closed_form_witness :
    payerExample.setupArguments.type.fixedMultiplier
        * annuity [1] payerExample.setupArguments.fixedPayDates
            payerExample.setupArguments.nominal flatDf ≠ 0 ∧
    (engineCalculate payerExample.setupArguments [1] flatDf (1/20) 0).fairRate
      = .ok ((1/20 : ℚ)
          - (engineCalculate payerExample.setupArguments [1] flatDf (1/20) 0).value
          / ((engineCalculate payerExample.setupArguments [1] flatDf (1/20) 0).fixedLegBPS
              / basisPoint)) :=
  ⟨by norm_num [payerExample, flatDf, SwapTerms.setupArguments, annuity,
      SwapType.fixedMultiplier],
    claim_C1_fairRate_closed_form payerExample.setupArguments [1] flatDf (1/20) 0
      (by norm_num [payerExample, flatDf, SwapTerms.setupArguments, annuity,
        SwapType.fixedMultiplier])⟩

/-- Counterexample for C1 as stated: on the one-period Payer swap of the
spec, the engine returns fair rate 0.03, but the claimed formula with
the unsigned, always-positive fixed-leg annuity (980,000 here) yields
0.05 - (-19,600)/980,000 = 0.07 ≠ 0.03. -/
theorem claim_C1_counterexample :
    (payerExample.calculate flatDf).fairRate = Except.ok (3/100) ∧
    payerExample.annuityFixed flatDf = 980000 ∧
    (0 : ℚ) < payerExample.annuityFixed flatDf ∧
    payerExample.fixedRate
        - (payerExample.calculate flatDf).value / payerExample.annuityFixed flatDf
      = 7/100 ∧
    (3/100 : ℚ) ≠ 7/100 := by
  refine ⟨?_, ?_, ?_, ?_, by norm_num⟩ <;>
    norm_num [payerExample, flatDf, SwapTerms.calculate, SwapTerms.setupArguments,
      SwapTerms.annuityFixed, engineCalculate, discountedSum, annuity,
      SwapType.fixedMultiplier, basisPoint]

/-- Claim C2: the fair floating spread is computed in closed form as
`fairSpread = spread - totalNPV / annuityFloating`, the floating-leg
annuity being `floatingLegBPS / 0.0001`, the signed derivative of the
floating-leg contribution to total NPV with respect to the spread. -/
theorem claim_C2_fairSpread_closed_form (a : SwapArguments) (fixedAccruals : List ℚ)
    (df : Date → ℚ) (fixedRate spread : ℚ)
    (h : -a.type.fixedMultiplier
        * annuity a.floatingAccrualTimes a.floatingPayDates a.nominal df ≠ 0) :
    (engineCalculate a fixedAccruals df fixedRate spread).fairSpread
      = .ok (spread - (engineCalculate a fixedAccruals df fixedRate spread).value
          / ((engineCalculate a fixedAccruals df fixedRate spread).floatingLegBPS
              / basisPoint)) := by
  rw [engineCalculate_fairSpread, if_neg h, engineCalculate_floatingLegBPS,
    mul_div_cancel_left₀ _ (show (basisPoint : ℚ) ≠ 0 by norm_num [basisPoint])]

/-- Witness for C2, at the one-period Payer example of the spec. -/
theorem claim_C2_fairSpread_closed_form_witness :
    -payerExample.setupArguments.type.fixedMultiplier
        * annuity payerExample.setupArguments.floatingAccrualTimes
            payerExample.setupArguments.floatingPayDates
            payerExample.setupArguments.nominal flatDf ≠ 0 ∧
    (engineCalculate payerExample.setupArguments [1] flatDf (1/20) 0).fairSpread
      = .ok ((0 : ℚ)
          - (engineCalculate payerExample.setupArguments [1] flatDf (1/20) 0).value
          / ((engineCalculate payerExample.setupArguments [1] flatDf (1/20) 0).floatingLegBPS
              / basisPoint)) :=
  ⟨by norm_num [payerExample, flatDf, SwapTerms.setupArguments, annuity,
      SwapType.fixedMultiplier],
    claim_C2_fairSpread_closed_form payerExample.setupArguments [1] flatDf (1/20) 0
      (by norm_num [payerExample, flatDf, SwapTerms.setupArguments, annuity,
        SwapType.fixedMultiplier])⟩

/-- Claim C5: substituting the computed fair fixed rate (resp. fair
floating spread) into an otherwise-identical instrument makes total NPV
exactly zero (rationals incur no rounding, so the spec tolerance is met
exactly). -/
theorem claim_C5_round_trip (s : SwapTerms) (df : Date → ℚ)
    (hlen : s.floatingForecasts.length = s.floatingAccrualTimes.length)
    (r sp : ℚ)
    (hr : (s.calculate df).fairRate = .ok r)
    (hsp : (s.calculate df).fairSpread = .ok sp) :
    (({ s with fixedRate := r } : SwapTerms).calculate df).value = 0 ∧
    (({ s with spread := sp } : SwapTerms).calculate df).value = 0 := by
  rw [calculate_fairRate_eq] at hr
  rw [calculate_fairSpread_eq] at hsp
  by_cases hA : s.type.fixedMultiplier * s.annuityFixed df = 0
  · rw [if_pos hA] at hr; exact absurd hr (by simp)
  rw [if_neg hA] at hr
  by_cases hAf : -s.type.fixedMultiplier * s.annuityFloating df = 0
  · rw [if_pos hAf] at hsp; exact absurd hsp (by simp)
  rw [if_neg hAf] at hsp
  have hrv : r = s.fixedRate
      - (s.calculate df).value / (s.type.fixedMultiplier * s.annuityFixed df) :=
    (Except.ok.inj hr).symm
  have hspv : sp = s.spread
      - (s.calculate df).value / (-s.type.fixedMultiplier * s.annuityFloating df) :=
    (Except.ok.inj hsp).symm
  have hV := calculate_value_eq s df hlen
  have hV1 : (({ s with fixedRate := r } : SwapTerms).calculate df).value
      = s.type.fixedMultiplier * (r * s.annuityFixed df
        - s.spread * s.annuityFloating df - s.floatingBase df) :=
    calculate_value_eq ({ s with fixedRate := r } : SwapTerms) df hlen
  have hV2 : (({ s with spread := sp } : SwapTerms).calculate df).value
      = s.type.fixedMultiplier * (s.fixedRate * s.annuityFixed df
        - sp * s.annuityFloating df - s.floatingBase df) :=
    calculate_value_eq ({ s with spread := sp } : SwapTerms) df hlen
  obtain ⟨hsgn, hAx⟩ := mul_ne_zero_iff.mp hA
  obtain ⟨-, hAfx⟩ := mul_ne_zero_iff.mp hAf
  constructor
  · rw [hV1, hrv, hV]
    field_simp
    ring
  · rw [hV2, hspv, hV]
    field_simp
    ring

/-- Witness for C5, at the one-period Payer example of the spec: fair
rate 0.03 and fair spread 0.02 both zero the total NPV. -/
theorem claim_C5_round_trip_witness :
    (({ payerExample with fixedRate := 3/100 } : SwapTerms).calculate flatDf).value = 0 ∧
    (({ payerExample with spread := 1/50 } : SwapTerms).calculate flatDf).value = 0 :=
  claim_C5_round_trip payerExample flatDf rfl (3/100) (1/50)
    (by norm_num [payerExample, flatDf, SwapTerms.calculate, SwapTerms.setupArguments,
      engineCalculate, discountedSum, annuity, SwapType.fixedMultiplier, basisPoint])
    (by norm_num [payerExample, flatDf, SwapTerms.calculate, SwapTerms.setupArguments,
      engineCalculate, discountedSum, annuity, SwapType.fixedMultiplier, basisPoint])

/-- Claim C6: for a Payer-fixed instrument with positive leg annuities,
total NPV strictly decreases in the paid fixed rate and strictly
increases in the received floating spread. -/
theorem claim_C6_payer_monotonicity (s : SwapTerms) (df : Date → ℚ)
    (hlen : s.floatingForecasts.length = s.floatingAccrualTimes.length)
    (hty : s.type = SwapType.Payer)
    (hA : 0 < s.annuityFixed df) (hAf : 0 < s.annuityFloating df)
    (r1 r2 sp1 sp2 : ℚ) :
    (r1 < r2 →
      (({ s with fixedRate := r2 } : SwapTerms).calculate df).value
        < (({ s with fixedRate := r1 } : SwapTerms).calculate df).value) ∧
    (sp1 < sp2 →
      (({ s with spread := sp1 } : SwapTerms).calculate df).value
        < (({ s with spread := sp2 } : SwapTerms).calculate df).value) := by
  have hsgn : s.type.fixedMultiplier = -1 := by rw [hty]; rfl
  have h1 : ∀ x : ℚ, (({ s with fixedRate := x } : SwapTerms).calculate df).value
      = s.type.fixedMultiplier * (x * s.annuityFixed df
        - s.spread * s.annuityFloating df - s.floatingBase df) :=
    fun x => calculate_value_eq ({ s with fixedRate := x } : SwapTerms) df hlen
  have h2 : ∀ y : ℚ, (({ s with spread := y } : SwapTerms).calculate df).value
      = s.type.fixedMultiplier * (s.fixedRate * s.annuityFixed df
        - y * s.annuityFloating df - s.floatingBase df) :=
    fun y => calculate_value_eq ({ s with spread := y } : SwapTerms) df hlen
  constructor
  · intro h
    rw [h1 r1, h1 r2, hsgn]
    have := mul_lt_mul_of_pos_right h hA
    linarith
  · intro h
    rw [h2 sp1, h2 sp2, hsgn]
    have := mul_lt_mul_of_pos_right h hAf
    linarith

/-- Witness for C6: on the one-period Payer example, raising the fixed
rate from 0 to 1 lowers NPV, and raising the spread from 0 to 1 raises
NPV. -/
theorem claim_C6_payer_monotonicity_witness :
    (({ payerExample with fixedRate := 1 } : SwapTerms).calculate flatDf).value
        < (({ payerExample with fixedRate := 0 } : SwapTerms).calculate flatDf).value ∧
    (({ payerExample with spread := 0 } : SwapTerms).calculate flatDf).value
        < (({ payerExample with spread := 1 } : SwapTerms).calculate flatDf).value := by
  have h := claim_C6_payer_monotonicity payerExample flatDf rfl rfl
    (by norm_num [payerExample, flatDf, SwapTerms.annuityFixed, annuity])
    (by norm_num [payerExample, flatDf, SwapTerms.annuityFloating, annuity])
    0 1 0 1
  exact ⟨h.1 (by norm_num), h.2 (by norm_num)⟩
